import Mathlib

/-!
Shallow embedding of the admonition/callout transform of this repository
(`AdmonitionComponent` and its helper `capitalize`), together with proofs of
the specified properties.

The source is a JavaScript function over hast nodes (as produced by
`hastscript`'s `h`).  We model a hast node as either an element (tag name,
property list, children) or a text node (literal value).  A JS value read as
`child.value || ''` is the text value for a text node and `''` for an element
(whose `value` is `undefined`); `label.children` is the child list for an
element and absent (`undefined`) for a text node.
-/

/-- A hast node: an element (tag, properties, children) or a text node. -/
inductive HNode where
  | element (tag : String) (props : List (String × String)) (children : List HNode)
  | text (value : String)

/-- The one property of the `properties` object the source reads:
the truthiness of `properties['has-directive-label']`. -/
structure DirectiveProps where
  hasDirectiveLabel : Bool
deriving DecidableEq, Repr

/-- The `children` argument as received from JavaScript: either an actual
array of nodes or some non-array value (`Array.isArray` fails). -/
inductive ChildrenArg where
  | arr (elems : List HNode)
  | nonArray

/-- `const capitalize = (str) => str.charAt(0).toUpperCase() + str.slice(1)`:
uppercase the first character, keep the rest.  On the empty string,
`charAt(0)` and `slice(1)` are both `""`. -/
def capitalize (str : String) : String :=
  match str.data with
  | [] => ""
  | c :: rest => String.mk (c.toUpper :: rest)

/-- `child.value || ''`: the literal value of a text node, `''` otherwise. -/
def childValue : HNode → String
  | .text v => v
  | .element _ _ _ => ""

/-- `label.children`: present (as a list) only on element nodes. -/
def nodeChildren : HNode → Option (List HNode)
  | .element _ _ cs => some cs
  | .text _ => none

/-- Truthiness of `properties?.['has-directive-label']`
(`undefined`, hence falsy, when `properties` is null/undefined). -/
def hasDirectiveLabelFlag : Option DirectiveProps → Bool
  | some p => p.hasDirectiveLabel
  | none => false

/-- The fallback node returned by the validation guard:
`h('div', { class: 'hidden' }, 'Invalid admonition directive. ...')`. -/
def fallbackNode : HNode :=
  .element "div" [("class", "hidden")]
    [.text "Invalid admonition directive. Use: :::note <content> :::"]

/-- Drop whitespace characters from both ends of a character list. -/
def trimChars (l : List Char) : List Char :=
  ((l.dropWhile Char.isWhitespace).reverse.dropWhile Char.isWhitespace).reverse

/-- JavaScript `String.prototype.trim`: remove leading and trailing
whitespace (restricted here to ASCII whitespace, which is all the label
texts in scope contain). -/
def jsTrim (s : String) : String :=
  String.mk (trimChars s.data)

/-- `label.children.map(child => child.value || '').join('').trim()`:
the flattened, trimmed text of a label node's children. -/
def flattenLabelChildren (lcs : List HNode) : String :=
  jsTrim (String.join (lcs.map (fun child => childValue child)))

/-- The `titleText` computed by the source: starts as `capitalize(type)`;
when `properties?.['has-directive-label']` is truthy, `label = children[0]`
and, when `label && label.children && label.children.length > 0` and the
flattened label text is non-empty (truthy), it becomes
`capitalize(type) ++ " (" ++ labelText ++ ")"`. -/
def admonitionTitle (properties : Option DirectiveProps) (cs : List HNode)
    (type : String) : String :=
  if hasDirectiveLabelFlag properties then
    match cs.head? with
    | some lab =>
      match nodeChildren lab with
      | some lcs =>
        if lcs.length > 0 then
          let labelText := flattenLabelChildren lcs
          if labelText ≠ "" then
            capitalize type ++ " (" ++ labelText ++ ")"
          else capitalize type
        else capitalize type
      | none => capitalize type
    | none => capitalize type
  else capitalize type

/-- Embedding of `AdmonitionComponent(properties, children, type)` from the
source.  The guard mirrors `!Array.isArray(children) || children.length === 0`;
the label branch mirrors `properties?.['has-directive-label']` with
`children[0]` consumed via `children.slice(1)` (the title computation is
factored out as `admonitionTitle`); the assembly mirrors the final `h` call
building a blockquote whose class is the string `admonition bdm-` followed
by `type`, containing a `bdm-title` div with the title text and then the
remaining children. -/
def AdmonitionComponent (properties : Option DirectiveProps)
    (children : ChildrenArg) (type : String) : HNode :=
  match children with
  | .nonArray => fallbackNode
  | .arr cs =>
    if cs.isEmpty then fallbackNode
    else
      let hasLabel := hasDirectiveLabelFlag properties
      let body := if hasLabel then cs.drop 1 else cs
      .element "blockquote" [("class", "admonition bdm-" ++ type)]
        (.element "div" [("class", "bdm-title")]
          [.text (admonitionTitle properties cs type)] :: body)

/-- The `class` property of a node, when it is an element carrying one. -/
def nodeClass : HNode → Option String
  | .element _ props _ => (props.find? (fun p => p.1 == "class")).map (fun p => p.2)
  | .text _ => none

/-- `!Array.isArray(children) || children.length === 0`: the guard's test. -/
def malformedChildren : ChildrenArg → Bool
  | .nonArray => true
  | .arr cs => cs.isEmpty

/-- The flattened, trimmed text of a label node: its children flattened when
it has a non-absent `children` field, `""` otherwise (a text node has no
`children`, so the source skips the extraction and the flat text is vacuously
blank). -/
def labelFlatText : HNode → String
  | .element _ _ lcs => flattenLabelChildren lcs
  | .text _ => ""

/-- A label node that is structurally empty: no `children` field (a text
node) or an empty `children` list. -/
def labelStructurallyEmpty : HNode → Bool
  | .text _ => true
  | .element _ _ lcs => lcs.isEmpty

/-- The text of the title sub-node (first child) of a produced element. -/
def titleTextOf : HNode → Option String
  | .element _ _ (.element _ _ [.text t] :: _) => some t
  | _ => none

/-- The body of a produced callout: its children after the title sub-node. -/
def bodyOf : HNode → Option (List HNode)
  | .element _ _ (_ :: rest) => some rest
  | _ => none

/-- Heap-level model of the call, to state non-mutation of the caller's
array.  The heap is a list of JS arrays of nodes; an array's identity is its
index.  The only allocation the source performs on `children` is
`children.slice(1)` (reached exactly when the label flag is truthy and the
guard passed), which creates a fresh array and rebinds the local variable;
the caller's array is never written.  The returned node is the one computed
by `AdmonitionComponent` on the array the reference designates. -/
def AdmonitionComponentAlloc (heap : List (List HNode))
    (properties : Option DirectiveProps) (childrenRef : Nat) (type : String) :
    List (List HNode) × HNode :=
  let cs := heap.getD childrenRef []
  let result := AdmonitionComponent properties (ChildrenArg.arr cs) type
  if hasDirectiveLabelFlag properties && !cs.isEmpty then
    (heap ++ [cs.drop 1], result)
  else
    (heap, result)

theorem isEmpty_false_of_ne_nil {cs : List HNode} (h : cs ≠ []) :
    cs.isEmpty = false := by
  cases cs with
  | nil => exact absurd rfl h
  | cons a l => rfl

theorem admonition_arr_eq (properties : Option DirectiveProps) (cs : List HNode)
    (type : String) (h : cs ≠ []) :
    AdmonitionComponent properties (ChildrenArg.arr cs) type =
      HNode.element "blockquote" [("class", "admonition bdm-" ++ type)]
        (HNode.element "div" [("class", "bdm-title")]
          [HNode.text (admonitionTitle properties cs type)] ::
          (if hasDirectiveLabelFlag properties then cs.drop 1 else cs)) := by
  simp [AdmonitionComponent, isEmpty_false_of_ne_nil h]

theorem admonitionTitle_no_label (properties : Option DirectiveProps)
    (cs : List HNode) (type : String)
    (h : hasDirectiveLabelFlag properties = false) :
    admonitionTitle properties cs type = capitalize type := by
  simp [admonitionTitle, h]

theorem admonitionTitle_label_nonblank (tag : String) (p : List (String × String))
    (lcs rest : List HNode) (type : String) (h : flattenLabelChildren lcs ≠ "") :
    admonitionTitle (some ⟨true⟩) (HNode.element tag p lcs :: rest) type =
      capitalize type ++ " (" ++ flattenLabelChildren lcs ++ ")" := by
  have hne : lcs ≠ [] := by
    rintro rfl
    exact h (by decide)
  simp [admonitionTitle, hasDirectiveLabelFlag, nodeChildren,
    List.length_pos.mpr hne, h]

theorem admonitionTitle_label_blank (lab : HNode) (rest : List HNode)
    (type : String) (h : labelFlatText lab = "") :
    admonitionTitle (some ⟨true⟩) (lab :: rest) type = capitalize type := by
  cases lab with
  | text v => simp [admonitionTitle, hasDirectiveLabelFlag, nodeChildren]
  | element tag p lcs =>
    by_cases hl : lcs = []
    · subst hl
      simp [admonitionTitle, hasDirectiveLabelFlag, nodeChildren]
    · have hflat : flattenLabelChildren lcs = "" := h
      simp [admonitionTitle, hasDirectiveLabelFlag, nodeChildren, hflat]

/-- Claim C1: for every properties mapping, kind string and malformed
`children` value (non-array or empty array), `AdmonitionComponent` returns
the fallback hidden/error node, regardless of kind or the label flag, and
no exception is propagated (the function is total). -/
theorem c1_malformed_children_fallback (properties : Option DirectiveProps)
    (children : ChildrenArg) (type : String)
    (h : malformedChildren children = true) :
    AdmonitionComponent properties children type = fallbackNode := by
  cases children with
  | nonArray => rfl
  | arr cs =>
    simp only [malformedChildren] at h
    simp [AdmonitionComponent, h]

/-- Witness for C1 at `properties = none`, `children = []`, `kind = "note"`. -/
theorem c1_witness :
    malformedChildren (ChildrenArg.arr []) = true ∧
    AdmonitionComponent none (ChildrenArg.arr []) "note" = fallbackNode :=
  ⟨rfl, c1_malformed_children_fallback none (ChildrenArg.arr []) "note" rfl⟩

theorem char_toNat_ofNat_of_valid (n : Nat) (h : n.isValidChar) :
    (Char.ofNat n).toNat = n := by
  simp only [Char.ofNat]
  rw [dif_pos h]
  rfl

theorem char_toUpper_idem (c : Char) : c.toUpper.toUpper = c.toUpper := by
  by_cases h : c.toNat ≥ 97 ∧ c.toNat ≤ 122
  · have hv : Nat.isValidChar (c.toNat - 32) := Or.inl (by omega)
    have ht : (Char.ofNat (c.toNat - 32)).toNat = c.toNat - 32 :=
      char_toNat_ofNat_of_valid _ hv
    simp only [Char.toUpper]
    rw [if_pos h, ht, if_neg (by omega)]
  · simp only [Char.toUpper]
    rw [if_neg h, if_neg h]

theorem capitalize_cons (c : Char) (rest : List Char) :
    capitalize (String.mk (c :: rest)) = String.mk (c.toUpper :: rest) := rfl

theorem capitalize_idem (s : String) : capitalize (capitalize s) = capitalize s := by
  cases s with
  | mk data =>
    cases data with
    | nil => rfl
    | cons c rest =>
      rw [capitalize_cons, capitalize_cons, char_toUpper_idem]

/-- Claim C6: `capitalize` uppercases only the first character and leaves
the rest unchanged; it is idempotent; `capitalize "note" = "Note"` and
`capitalize "IMPORTANT" = "IMPORTANT"`. -/
theorem c6_capitalize_first_char_only :
    (∀ s : String, capitalize (capitalize s) = capitalize s) ∧
    capitalize "note" = "Note" ∧
    capitalize "IMPORTANT" = "IMPORTANT" ∧
    (∀ s : String, (capitalize s).data.head? = s.data.head?.map Char.toUpper ∧
      (capitalize s).data.tail = s.data.tail) := by
  refine ⟨capitalize_idem, by decide, by decide, ?_⟩
  intro s
  cases s with
  | mk data =>
    cases data with
    | nil => exact ⟨rfl, rfl⟩
    | cons c rest => exact ⟨rfl, rfl⟩

/-- Claim C2: with the label flag set and a first child whose flattened,
trimmed text is non-empty, the title is the capitalized kind followed by the
flattened text in parentheses, and the body is the remaining children in
original order. -/
theorem c2_label_roundtrip (tag : String) (p : List (String × String))
    (lcs rest : List HNode) (type : String)
    (h : flattenLabelChildren lcs ≠ "") :
    AdmonitionComponent (some ⟨true⟩)
      (ChildrenArg.arr (HNode.element tag p lcs :: rest)) type =
      HNode.element "blockquote" [("class", "admonition bdm-" ++ type)]
        (HNode.element "div" [("class", "bdm-title")]
          [HNode.text (capitalize type ++ " (" ++ flattenLabelChildren lcs ++ ")")] ::
          rest) := by
  rw [admonition_arr_eq _ _ _ (List.cons_ne_nil _ _),
    admonitionTitle_label_nonblank _ _ _ _ _ h]
  simp [hasDirectiveLabelFlag]

/-- Witness for C2 at the spec's example: label text `"Pro Tip"`,
`kind = "tip"`, giving the title `"Tip (Pro Tip)"`. -/
theorem c2_witness :
    AdmonitionComponent (some ⟨true⟩)
      (ChildrenArg.arr [HNode.element "div" [] [HNode.text "Pro Tip"],
        HNode.text "body"]) "tip" =
      HNode.element "blockquote" [("class", "admonition bdm-" ++ "tip")]
        (HNode.element "div" [("class", "bdm-title")]
          [HNode.text (capitalize "tip" ++ " (" ++
            flattenLabelChildren [HNode.text "Pro Tip"] ++ ")")] ::
          [HNode.text "body"]) ∧
    capitalize "tip" ++ " (" ++ flattenLabelChildren [HNode.text "Pro Tip"] ++ ")" =
      "Tip (Pro Tip)" :=
  ⟨c2_label_roundtrip "div" [] [HNode.text "Pro Tip"] [HNode.text "body"] "tip"
      (by decide),
    by decide⟩

/-- Claim C3, counterexample: the claim asserts the class for
`kind = "caution"` is `admonition-caution`, but the code emits the class
string `admonition bdm-caution` (namespace `admonition bdm-`, not a dash). -/
theorem c3_counterexample :
    nodeClass (AdmonitionComponent none (ChildrenArg.arr [HNode.text "Be careful"])
      "caution") ≠ some "admonition-caution" := by decide

/-- Claim C3 (amended): for every non-empty children sequence and kind, the
container's class combines the fixed namespace token `admonition bdm-` with
the kind verbatim; in particular for the caution scenario the output is a
blockquote with class `admonition bdm-caution` containing the title node
with text `"Caution"` and then the text node. -/
theorem c3_class_encodes_kind :
    (∀ (properties : Option DirectiveProps) (cs : List HNode) (type : String),
      cs ≠ [] →
      nodeClass (AdmonitionComponent properties (ChildrenArg.arr cs) type) =
        some ("admonition bdm-" ++ type)) ∧
    AdmonitionComponent none (ChildrenArg.arr [HNode.text "Be careful"]) "caution" =
      HNode.element "blockquote" [("class", "admonition bdm-caution")]
        [HNode.element "div" [("class", "bdm-title")] [HNode.text "Caution"],
         HNode.text "Be careful"] := by
  constructor
  · intro properties cs type h
    rw [admonition_arr_eq _ _ _ h]
    simp [nodeClass]
  · rfl

/-- Witness for C3's universally quantified part at a concrete input. -/
theorem c3_witness :
    nodeClass (AdmonitionComponent (some ⟨true⟩)
      (ChildrenArg.arr [HNode.text "x"]) "note") =
      some ("admonition bdm-" ++ "note") :=
  c3_class_encodes_kind.1 (some ⟨true⟩) [HNode.text "x"] "note"
    (List.cons_ne_nil _ _)

/-- Claim C4: with the label flag set, a label whose flattened text trims to
empty leaves the title at the capitalized-kind baseline, with no
parentheses. -/
theorem c4_blank_label_title_baseline (lab : HNode) (rest : List HNode)
    (type : String) (h : labelFlatText lab = "") :
    AdmonitionComponent (some ⟨true⟩) (ChildrenArg.arr (lab :: rest)) type =
      HNode.element "blockquote" [("class", "admonition bdm-" ++ type)]
        (HNode.element "div" [("class", "bdm-title")]
          [HNode.text (capitalize type)] :: rest) := by
  rw [admonition_arr_eq _ _ _ (List.cons_ne_nil _ _),
    admonitionTitle_label_blank _ _ _ h]
  simp [hasDirectiveLabelFlag]

/-- Witness for C4 at a whitespace-only label and `kind = "warning"`:
the title is exactly `"Warning"`. -/
theorem c4_witness :
    labelFlatText (HNode.element "p" [] [HNode.text "   "]) = "" ∧
    AdmonitionComponent (some ⟨true⟩)
      (ChildrenArg.arr [HNode.element "p" [] [HNode.text "   "], HNode.text "w"])
      "warning" =
      HNode.element "blockquote" [("class", "admonition bdm-" ++ "warning")]
        (HNode.element "div" [("class", "bdm-title")]
          [HNode.text (capitalize "warning")] :: [HNode.text "w"]) ∧
    capitalize "warning" = "Warning" :=
  ⟨by decide,
    c4_blank_label_title_baseline (HNode.element "p" [] [HNode.text "   "])
      [HNode.text "w"] "warning" (by decide),
    by decide⟩

/-- Claim C5: with the label flag false or absent, the body is the input
children unchanged and in order, and the title is the capitalized kind. -/
theorem c5_no_label_body_unchanged (properties : Option DirectiveProps)
    (cs : List HNode) (type : String)
    (h1 : hasDirectiveLabelFlag properties = false) (h2 : cs ≠ []) :
    AdmonitionComponent properties (ChildrenArg.arr cs) type =
      HNode.element "blockquote" [("class", "admonition bdm-" ++ type)]
        (HNode.element "div" [("class", "bdm-title")]
          [HNode.text (capitalize type)] :: cs) := by
  rw [admonition_arr_eq _ _ _ h2, admonitionTitle_no_label _ _ _ h1]
  simp [h1]

/-- Witness for C5 at `children = [p1, p2]` with absent properties. -/
theorem c5_witness :
    AdmonitionComponent none
      (ChildrenArg.arr [HNode.element "p" [] [HNode.text "one"],
        HNode.element "p" [] [HNode.text "two"]]) "note" =
      HNode.element "blockquote" [("class", "admonition bdm-" ++ "note")]
        (HNode.element "div" [("class", "bdm-title")]
          [HNode.text (capitalize "note")] ::
          [HNode.element "p" [] [HNode.text "one"],
           HNode.element "p" [] [HNode.text "two"]]) :=
  c5_no_label_body_unchanged none
    [HNode.element "p" [] [HNode.text "one"], HNode.element "p" [] [HNode.text "two"]]
    "note" rfl (List.cons_ne_nil _ _)

/-- Claim C7: the transform is total — for every properties mapping,
children value and kind it returns a node (the fallback, or a well-formed
blockquote callout); being a Lean function of its inputs it throws nothing
and has no side effects. -/
theorem c7_total_shape (properties : Option DirectiveProps)
    (children : ChildrenArg) (type : String) :
    AdmonitionComponent properties children type = fallbackNode ∨
    ∃ t body, AdmonitionComponent properties children type =
      HNode.element "blockquote" [("class", "admonition bdm-" ++ type)]
        (HNode.element "div" [("class", "bdm-title")] [HNode.text t] :: body) := by
  cases children with
  | nonArray => exact Or.inl rfl
  | arr cs =>
    cases cs with
    | nil => exact Or.inl rfl
    | cons a l =>
      exact Or.inr ⟨admonitionTitle properties (a :: l) type,
        if hasDirectiveLabelFlag properties then (a :: l).drop 1 else (a :: l),
        admonition_arr_eq _ _ _ (List.cons_ne_nil _ _)⟩

/-- Claim C8: at the heap level, the caller's array is unchanged by the
call — the slice used to drop the label is a fresh allocation, so the array
the reference designates has the same elements in the same order after the
call. -/
theorem c8_no_mutation (heap : List (List HNode))
    (properties : Option DirectiveProps) (childrenRef : Nat) (type : String)
    (h : childrenRef < heap.length) :
    ((AdmonitionComponentAlloc heap properties childrenRef type).1)[childrenRef]? =
      heap[childrenRef]? := by
  unfold AdmonitionComponentAlloc
  by_cases hc :
      (hasDirectiveLabelFlag properties && !(heap.getD childrenRef []).isEmpty) = true
  · simp only [hc, if_true]
    exact List.getElem?_append_left h
  · simp only [hc, if_false]
    rfl

/-- Witness for C8 on a one-array heap with the label path taken. -/
theorem c8_witness :
    ((AdmonitionComponentAlloc [[HNode.text "a", HNode.text "b"]]
      (some ⟨true⟩) 0 "tip").1)[0]? = [[HNode.text "a", HNode.text "b"]][0]? :=
  c8_no_mutation [[HNode.text "a", HNode.text "b"]] (some ⟨true⟩) 0 "tip"
    (by decide)

/-- Claim C9: with the label flag truthy, a first child with no `children`
field or an empty `children` list is still consumed (removed from the body)
while the title stays at the capitalized-kind baseline. -/
theorem c9_structurally_empty_label (lab : HNode) (rest : List HNode)
    (type : String) (h : labelStructurallyEmpty lab = true) :
    AdmonitionComponent (some ⟨true⟩) (ChildrenArg.arr (lab :: rest)) type =
      HNode.element "blockquote" [("class", "admonition bdm-" ++ type)]
        (HNode.element "div" [("class", "bdm-title")]
          [HNode.text (capitalize type)] :: rest) := by
  have hflat : labelFlatText lab = "" := by
    cases lab with
    | text v => rfl
    | element tag p lcs =>
      simp only [labelStructurallyEmpty, List.isEmpty_iff] at h
      subst h
      show flattenLabelChildren [] = ""
      decide
  rw [admonition_arr_eq _ _ _ (List.cons_ne_nil _ _),
    admonitionTitle_label_blank _ _ _ hflat]
  simp [hasDirectiveLabelFlag]

/-- Witness for C9: a text-node label (no `children` field) is consumed and
the title is the baseline `capitalize "note"`. -/
theorem c9_witness :
    labelStructurallyEmpty (HNode.text "ignored") = true ∧
    AdmonitionComponent (some ⟨true⟩)
      (ChildrenArg.arr [HNode.text "ignored", HNode.text "body"]) "note" =
      HNode.element "blockquote" [("class", "admonition bdm-" ++ "note")]
        (HNode.element "div" [("class", "bdm-title")]
          [HNode.text (capitalize "note")] :: [HNode.text "body"]) :=
  ⟨rfl,
    c9_structurally_empty_label (HNode.text "ignored") [HNode.text "body"] "note" rfl⟩

/-- Claim C10: for the empty kind the transform still returns a well-formed
callout: `capitalize "" = ""`, the class is the bare namespace token (empty
suffix), and the title text is `""`, or `" (<label>)"` when a non-blank
label is present. -/
theorem c10_empty_kind :
    capitalize "" = "" ∧
    (∀ (properties : Option DirectiveProps) (cs : List HNode), cs ≠ [] →
      nodeClass (AdmonitionComponent properties (ChildrenArg.arr cs) "") =
        some ("admonition bdm-" ++ "")) ∧
    (∀ (properties : Option DirectiveProps) (cs : List HNode),
      hasDirectiveLabelFlag properties = false → cs ≠ [] →
      titleTextOf (AdmonitionComponent properties (ChildrenArg.arr cs) "") =
        some "") ∧
    (∀ (tag : String) (p : List (String × String)) (lcs rest : List HNode),
      flattenLabelChildren lcs ≠ "" →
      titleTextOf (AdmonitionComponent (some ⟨true⟩)
        (ChildrenArg.arr (HNode.element tag p lcs :: rest)) "") =
        some (" (" ++ flattenLabelChildren lcs ++ ")")) := by
  refine ⟨rfl, ?_, ?_, ?_⟩
  · intro properties cs h
    rw [admonition_arr_eq _ _ _ h]
    simp [nodeClass]
  · intro properties cs h1 h2
    rw [admonition_arr_eq _ _ _ h2, admonitionTitle_no_label _ _ _ h1]
    simp [titleTextOf]
    rfl
  · intro tag p lcs rest h
    rw [admonition_arr_eq _ _ _ (List.cons_ne_nil _ _),
      admonitionTitle_label_nonblank _ _ _ _ _ h]
    simp [titleTextOf]
    rfl

/-- Witness for C10 at concrete inputs for each quantified conjunct. -/
theorem c10_witness :
    nodeClass (AdmonitionComponent none (ChildrenArg.arr [HNode.text "c"]) "") =
      some ("admonition bdm-" ++ "") ∧
    titleTextOf (AdmonitionComponent none (ChildrenArg.arr [HNode.text "c"]) "") =
      some "" ∧
    titleTextOf (AdmonitionComponent (some ⟨true⟩)
      (ChildrenArg.arr [HNode.element "em" [] [HNode.text "L"], HNode.text "c"]) "") =
      some (" (" ++ flattenLabelChildren [HNode.text "L"] ++ ")") :=
  ⟨c10_empty_kind.2.1 none [HNode.text "c"] (List.cons_ne_nil _ _),
   c10_empty_kind.2.2.1 none [HNode.text "c"] rfl (List.cons_ne_nil _ _),
   c10_empty_kind.2.2.2 "em" [] [HNode.text "L"] [HNode.text "c"] (by decide)⟩
